import Mathlib

/-!
Verification development for the digital-store payment backend
(`server.js` plus the `retryWithBackoff` helper of `routes.ts`).

The payment flow is shallowly embedded:
* JS numbers live in `JsNumber`: `NaN` and the two infinities are explicit,
  and finite doubles are carried as exact rationals — the
  zero/sign/`NaN`/infinity classification of every parsed amount is exact
  (including `parseFloat`'s `Infinity` literal and the double underflow and
  overflow thresholds), while finite magnitudes are modelled up to
  floating-point rounding, which the claims under study do not depend on;
* a non-string `total` is tracked by its `ToNumber` image, which is what
  every check and arithmetic step applied to it observes;
* millisecond timestamps (`Date.now()`) become `Int`; ISO-string timestamps
  are renderings of the same instants and are also represented as `Int`;
* the in-memory object `pagamentos` becomes a function store
  `String → Option Registro` (a JS object has exactly one value per key);
* the remote payment gateway (Mercado Pago) is an opaque external service:
  each operation that contacts it takes the gateway's answer as an explicit
  argument (`GatewayResult` / `Except String GetResp`);
* fire-and-forget handlers are modelled by the store transformation they
  perform once their gateway answer is available.
-/

namespace Loja

/-! ## JS string helpers

`String.prototype.replace` with a *string* pattern replaces only the first
occurrence; with a global regex (`/\./g`) it replaces all occurrences.
We work on `List Char`.
-/

/-- First-occurrence string replacement, as JS `s.replace(pat, rep)` with a
string pattern.  An empty pattern inserts `rep` at the front (JS behavior). -/
def jsReplaceFirst : List Char → List Char → List Char → List Char
  | s, [], rep => rep ++ s
  | [], _ :: _, _ => []
  | c :: cs, p :: ps, rep =>
    if (c :: cs).take (p :: ps).length = p :: ps then
      rep ++ (c :: cs).drop (p :: ps).length
    else
      c :: jsReplaceFirst cs (p :: ps) rep

/-- `s.replace(/\./g, "")` — removes every dot. -/
def jsRemoveDots (s : List Char) : List Char :=
  s.filter (fun c => c != '.')

/-- Value of a decimal digit character. -/
def digitVal (c : Char) : ℕ := c.toNat - '0'.toNat

/-- Decimal digits to a natural number. -/
def digitsToNat (ds : List Char) : ℕ :=
  ds.foldl (fun n c => 10 * n + digitVal c) 0

/-- The JS whitespace and line-terminator set skipped by `parseFloat`:
space, tab, LF, VT, FF, CR, NBSP, Ogham space mark, the Zs range
2000-200A, LS, PS, NNBSP, MMSP, ideographic space and the BOM. -/
def jsWhitespace (c : Char) : Bool :=
  c = ' ' || c = '\t' || c = '\n' || c.val = 11 || c.val = 12 || c = '\r' ||
  c.val = 0xa0 || c.val = 0x1680 || (0x2000 ≤ c.val && c.val ≤ 0x200a) ||
  c.val = 0x2028 || c.val = 0x2029 || c.val = 0x202f || c.val = 0x205f ||
  c.val = 0x3000 || c.val = 0xfeff

/-- A JS number: a finite double (carried as an exact rational, per the
file-wide convention that finite magnitudes are modelled up to
floating-point rounding), `NaN`, or one of the two infinities.  The
zero/sign/`NaN`/infinity classification is modelled exactly. -/
inductive JsNumber where
  | finite (q : ℚ)
  | nan
  | posInf
  | negInf
deriving DecidableEq

instance : Coe ℚ JsNumber := ⟨JsNumber.finite⟩

instance (n : ℕ) : OfNat JsNumber n := ⟨JsNumber.finite (OfNat.ofNat n)⟩

/-- JS truthiness of a number: `0` and `NaN` are falsy, everything else
(including the infinities) is truthy. -/
def jsTruthyNum : JsNumber → Bool
  | .finite q => decide (q ≠ 0)
  | .nan => false
  | .posInf => true
  | .negInf => true

/-- Multiplication of a JS number by a positive rational constant (used for
`* 100`): `NaN` and the infinities are absorbing. -/
def jsMulPos (n : JsNumber) (k : ℚ) : JsNumber :=
  match n with
  | .finite q => .finite (q * k)
  | .nan => .nan
  | .posInf => .posInf
  | .negInf => .negInf

/-- Scientific-notation stage of JS `parseFloat`: skip leading whitespace,
optional sign, digits, optional fraction, optional exponent; the longest
valid prefix is parsed and the rest ignored; `none` when no digit is found
(the `Infinity` literal is recognized separately by `jsParseFloatJs`).  The
parsed value is returned as a signed integer mantissa `n` (all mantissa
digits) and a power-of-ten exponent (the written exponent minus the number
of fraction digits), denoting `n * 10^e`. -/
def jsParseFloatSci (s0 : List Char) : Option (ℤ × ℤ) :=
  let s1 := s0.dropWhile jsWhitespace
  let sign : ℤ := match s1 with | '-' :: _ => -1 | _ => 1
  let s2 : List Char := match s1 with | '-' :: t => t | '+' :: t => t | _ => s1
  let intDs := s2.takeWhile (fun c => c.isDigit)
  let s3 := s2.dropWhile (fun c => c.isDigit)
  let fracDs : List Char :=
    match s3 with | '.' :: t => t.takeWhile (fun c => c.isDigit) | _ => []
  let s4 : List Char :=
    match s3 with | '.' :: t => t.dropWhile (fun c => c.isDigit) | _ => s3
  if intDs = [] ∧ fracDs = [] then none
  else
    let expVal : ℤ :=
      match s4 with
      | e :: t =>
        if e = 'e' ∨ e = 'E' then
          let esign : ℤ := match t with | '-' :: _ => -1 | _ => 1
          let t2 : List Char := match t with | '-' :: u => u | '+' :: u => u | _ => t
          let eDs := t2.takeWhile (fun c => c.isDigit)
          if eDs = [] then 0 else esign * (digitsToNat eDs : ℤ)
        else 0
      | [] => 0
    some (sign * (digitsToNat (intDs ++ fracDs) : ℤ), expVal - fracDs.length)

/-- Positive exact magnitudes at or below this bound round to zero under
round-to-nearest-even (the tie at the midpoint below the least subnormal
`2^(-1074)` goes to the even mantissa, zero). -/
def underflowBound : ℚ := 1 / 2 ^ 1075

/-- Exact magnitudes at or above this bound (the rounding boundary above the
largest finite double `2^1024 - 2^971`) overflow to the infinities. -/
def overflowBound : ℚ := 2 ^ 1024 - 2 ^ 970

/-- Classification of the double denoted by the exact decimal value
`n * 10^e`: zero below the underflow bound, infinite beyond the overflow
bound, otherwise a finite double of the same sign — carried as the exact
rational per the file-wide rounding convention (rounding to the nearest
double never changes the zero/sign/infinity classification except at these
two bounds). -/
def doubleOfSci (n e : ℤ) : JsNumber :=
  let x : ℚ := (n : ℚ) * (10 : ℚ) ^ e
  if |x| ≤ underflowBound then .finite 0
  else if overflowBound ≤ |x| then (if 0 < x then .posInf else .negInf)
  else .finite x

/-- JS `parseFloat` over the JS number domain: leading whitespace and an
optional sign, then either the `Infinity` literal or a decimal literal
classified through `doubleOfSci`; `.nan` when no numeric prefix exists. -/
def jsParseFloatJs (s0 : List Char) : JsNumber :=
  let s1 := s0.dropWhile jsWhitespace
  let neg : Bool := match s1 with | '-' :: _ => true | _ => false
  let s2 : List Char := match s1 with | '-' :: t => t | '+' :: t => t | _ => s1
  if s2.take 8 = ['I', 'n', 'f', 'i', 'n', 'i', 't', 'y'] then
    if neg then .negInf else .posInf
  else
    match jsParseFloatSci s0 with
    | none => .nan
    | some p => doubleOfSci p.1 p.2

/-- JS `a || b` on strings: empty string is falsy. -/
def jsOrStr (s : Option String) (d : String) : String :=
  match s with
  | some t => if t = "" then d else t
  | none => d

/-- JS `Math.round`: round half towards positive infinity. -/
def jsRound (q : ℚ) : ℤ := (q + 1/2).floor

/-! ## Data model -/

/-- A catalog product, from `Produtos.js`. -/
structure Produto where
  id : String
  nome : String
  preco : ℚ
  linkDownload : String
deriving DecidableEq

/-- One cart item in object shape.  `productId`/`productName` model
`item.product?.id` and `item.product?.name || item.product?.nome`;
`name` models `item.name || item.nome` collapsed to an `Option`. -/
structure CartItemObj where
  productId : Option String
  productName : Option String
  id : Option String
  name : Option String
  quantity : Option ℕ
deriving DecidableEq

/-- A cart item: the handler accepts objects and bare strings. -/
inductive CartItem where
  | obj (o : CartItemObj)
  | str (s : String)
deriving DecidableEq

/-- One resolved line item (`produtosEncontrados` entries). -/
structure ProductEntry where
  id : String
  name : String
  downloadUrl : Option String
  format : String
  fileSize : String
  quantity : ℕ
  price : ℚ
deriving DecidableEq

/-- QR payload stored with the record. -/
structure QrData where
  qr_code_base64 : String
  qr_code : String
  ticket_url : String
deriving DecidableEq

/-- The stored order record (`pagamentos[pagamento.id] = {...}`).
Fields absent on the minimal record synthesized by the status poll are
`Option`-typed.  `total` and `totalCentavos` are JS numbers, since a total
submitted as the string `"Infinity"` passes validation and is stored
non-finite. -/
structure Registro where
  status : String
  statusDetail : String
  links : List String
  criadoEm : Int
  paymentId : String
  customerEmail : String
  customerName : Option String
  total : JsNumber
  totalCentavos : JsNumber
  products : List ProductEntry
  createdAt : Int
  carrinhoOriginal : Option (List CartItem)
  externalReference : Option String
  qrData : Option QrData
  updatedAt : Option Int
deriving DecidableEq

/-- The in-memory tracking store `pagamentos`. -/
def Store := String → Option Registro

/-- `pagamentos[id] = r` — inserts or silently overwrites. -/
def putRecord (store : Store) (id : String) (r : Registro) : Store :=
  fun k => if k = id then some r else store k

/-- One hour in milliseconds (`umaHora`, the sweep retention threshold). -/
def umaHora : Int := 60 * 60 * 1000

/-- 24 hours in milliseconds (`tempoExpiracao`, the download window). -/
def tempoExpiracao : Int := 24 * 60 * 60 * 1000

/-- The periodic cleanup pass: deletes every record strictly older than
`maxAge` (`agora - pagamentos[id].criadoEm > maxAge`).  The interval handler
in `server.js` runs this with `maxAge := umaHora`. -/
def sweepExpired (now maxAge : Int) (store : Store) : Store :=
  fun k =>
    match store k with
    | none => none
    | some r => if now - r.criadoEm > maxAge then none else some r

/-- The deferred webhook reconciliation once the gateway reported
`newStatus`/`newDetail` for `id`: no-op when `id` is unknown, otherwise
overwrites status and detail and refreshes `updatedAt`. -/
def updateStatus (store : Store) (id : String) (newStatus newDetail : String)
    (now : Int) : Store :=
  match store id with
  | none => store
  | some r =>
      putRecord store id
        { r with status := newStatus, statusDetail := newDetail, updatedAt := some now }

/-! ## Cart resolution (`POST /criar-pagamento`, lines 101-155) -/

/-- JS `item.quantity || 1`: a missing or zero quantity defaults to 1. -/
def effQuantity : Option ℕ → ℕ
  | some n => if n = 0 then 1 else n
  | none => 1

/-- Truthiness filter for an optional string field. -/
def truthyS : Option String → Option String
  | some s => if s = "" then none else some s
  | none => none

/-- Extracts `(itemId, itemName, quantity)` from a cart item, following the
three supported shapes; `none` when no truthy id is found (the loop skips
such items). -/
def extractItem : CartItem → Option (String × Option String × ℕ)
  | .obj o =>
    match truthyS o.productId with
    | some pid => some (pid, o.productName, effQuantity o.quantity)
    | none =>
      match truthyS o.id with
      | some iid => some (iid, o.name, effQuantity o.quantity)
      | none => none
  | .str s => if s = "" then none else some (s, none, 1)

/-- `listarProdutos().find(prod => prod.id === itemId)`. -/
def findProduto (catalog : List Produto) (id : String) : Option Produto :=
  catalog.find? (fun p => p.id == id)

/-- The line-item entry pushed onto `produtosEncontrados` for one cart item:
a fully resolved entry when the catalog has the id, a placeholder entry
(price 0, no download reference) when it does not, nothing when the item
carries no id. -/
def entryOfItem (catalog : List Produto) (item : CartItem) : Option ProductEntry :=
  match extractItem item with
  | none => none
  | some (itemId, itemName, quantity) =>
    match findProduto catalog itemId with
    | some produto =>
        some { id := produto.id, name := produto.nome,
               downloadUrl := some produto.linkDownload, format := "Digital",
               fileSize := "N/A", quantity := quantity, price := produto.preco }
    | none =>
        some { id := itemId, name := jsOrStr itemName ("Produto ID: " ++ itemId),
               downloadUrl := none, format := "Digital", fileSize := "N/A",
               quantity := quantity, price := 0 }

/-- The download link pushed onto `links` for one cart item (only resolved
items contribute). -/
def linkOfItem (catalog : List Produto) (item : CartItem) : Option String :=
  (extractItem item).bind fun e => (findProduto catalog e.1).map Produto.linkDownload

/-- The `carrinho.forEach` accumulation: `(links, produtosEncontrados)`. -/
def processCart (catalog : List Produto) (cart : List CartItem) :
    List String × List ProductEntry :=
  (cart.filterMap (linkOfItem catalog), cart.filterMap (entryOfItem catalog))

/-! ## Order creation (`POST /criar-pagamento`, lines 53-203) -/

/-- The request's `total` field after JSON parsing.  `str` and `num` are
the documented payloads; `nonString` covers every other JS value by its
`ToNumber` image, which is what all the checks and arithmetic applied to a
non-string `valorTotal` observe (`true ↦ 1`, `false ↦ 0`, `null ↦ 0`, a
missing field `↦ NaN`, arrays and objects by their `ToPrimitive`-then-
`ToNumber` image, e.g. a singleton array `[5] ↦ 5` and a plain object
`↦ NaN`).  The model identifies such a raw value with its numeric image
throughout; how `res.json` would render the raw non-numeric value itself is
outside the model. -/
inductive TotalInput where
  | str (s : String)
  | num (q : ℚ)
  | nonString (coerced : JsNumber)
deriving DecidableEq

/-- `valorTotal` (lines 67-70): a string is piped through
`replace("R$", "")` (first occurrence), `replace(/\./g, "")` (every dot),
`replace(",", ".")` (first occurrence) and then `parseFloat`; a number is
used as-is; any other value acts through its numeric coercion in the
`isNaN`/`<=` checks that follow. -/
def parseValorTotalJs : TotalInput → JsNumber
  | .num q => .finite q
  | .nonString c => c
  | .str s =>
      jsParseFloatJs
        (jsReplaceFirst (jsRemoveDots (jsReplaceFirst s.data ['R', '$'] [])) [','] ['.'])

/-- The finite projection of `parseValorTotalJs`; several claims condition
on the submitted total parsing to a finite positive amount. -/
def parseValorTotal (t : TotalInput) : Option ℚ :=
  match parseValorTotalJs t with
  | .finite q => some q
  | _ => none

/-- The `total` member of `createPaymentSchema` (`routes.ts` lines 68-75):
`z.union([z.number(), z.string()])` followed by a transform that applies a
plain `parseFloat` to strings — with no currency stripping — and keeps
numbers, throwing exactly when the value is `NaN` or not positive (the
throw escapes `safeParse` and surfaces through the route's catch-all).
`none` models the rejection; non-string, non-number values are rejected by
the union itself. -/
def zodTotalTransform : TotalInput → Option JsNumber
  | .num q => if q ≤ 0 then none else some (.finite q)
  | .str s =>
      match jsParseFloatJs s.data with
      | .nan => none
      | .negInf => none
      | .posInf => some .posInf
      | .finite q => if q ≤ 0 then none else some (.finite q)
  | .nonString _ => none

/-- The body of `POST /criar-pagamento`. -/
structure CreateReq where
  carrinho : List CartItem
  nomeCliente : String
  email : String
  total : TotalInput

/-- The gateway's successful answer to `paymentClient.create` (the fields the
handler reads, with `point_of_interaction.transaction_data` flattened). -/
structure PaymentResp where
  id : String
  status : String
  status_detail : String
  qr_code_base64 : String
  qr_code : String
  ticket_url : String
deriving DecidableEq

/-- Outcome of the `paymentClient.create` call: answer or thrown error. -/
inductive GatewayResult where
  | ok (resp : PaymentResp)
  | err (msg : String)
deriving DecidableEq

/-- The JSON answer of a successful creation (lines 184-195). -/
structure CreateResp where
  id : String
  status : String
  qr_code_base64 : String
  qr_code : String
  ticket_url : String
  linksCount : ℕ
  productsCount : ℕ
deriving DecidableEq

/-- Result of the creation handler: 400 validation error, 500 gateway error,
or the success payload. -/
inductive CreateResult where
  | validationError (msg : String)
  | gatewayError (msg : String)
  | ok (resp : CreateResp)
deriving DecidableEq

/-- The record stored under `pagamentos[pagamento.id]` (lines 158-178).
Both `Date.now()` calls of the handler are modelled by the single instant
`now`; ISO strings are renderings of the same instants. -/
def mkOrderRecord (catalog : List Produto) (req : CreateReq) (resp : PaymentResp)
    (valorTotal : ℚ) (now : Int) : Registro :=
  let pc := processCart catalog req.carrinho
  { status := resp.status
    statusDetail := resp.status_detail
    links := pc.1
    criadoEm := now
    paymentId := resp.id
    customerEmail := req.email
    customerName := some req.nomeCliente
    total := .finite valorTotal
    totalCentavos := .finite ((jsRound (valorTotal * 100) : ℤ) : ℚ)
    products := pc.2
    createdAt := now
    carrinhoOriginal := some req.carrinho
    externalReference := some ("loja_" ++ toString now)
    qrData := some { qr_code_base64 := resp.qr_code_base64,
                     qr_code := resp.qr_code, ticket_url := resp.ticket_url }
    updatedAt := none }

/-- The record stored when the handler proceeds with `valorTotal = Infinity`
(a total submitted as `"Infinity"` passes both `isNaN` and `<= 0`): as
`mkOrderRecord`, with `total = Infinity` and
`totalCentavos = Math.round(Infinity * 100) = Infinity`. -/
def mkOrderRecordInf (catalog : List Produto) (req : CreateReq) (resp : PaymentResp)
    (now : Int) : Registro :=
  let pc := processCart catalog req.carrinho
  { status := resp.status
    statusDetail := resp.status_detail
    links := pc.1
    criadoEm := now
    paymentId := resp.id
    customerEmail := req.email
    customerName := some req.nomeCliente
    total := .posInf
    totalCentavos := .posInf
    products := pc.2
    createdAt := now
    carrinhoOriginal := some req.carrinho
    externalReference := some ("loja_" ++ toString now)
    qrData := some { qr_code_base64 := resp.qr_code_base64,
                     qr_code := resp.qr_code, ticket_url := resp.ticket_url }
    updatedAt := none }

/-- The success payload of the creation handler. -/
def mkCreateResp (catalog : List Produto) (req : CreateReq) (resp : PaymentResp) :
    CreateResp :=
  let pc := processCart catalog req.carrinho
  { id := resp.id, status := resp.status, qr_code_base64 := resp.qr_code_base64,
    qr_code := resp.qr_code, ticket_url := resp.ticket_url,
    linksCount := pc.1.length, productsCount := pc.2.length }

/-- The `POST /criar-pagamento` handler: validations, then the gateway call
(whose outcome is the `gw` argument), then cart resolution and storage.
Returns the response together with the new store. -/
def createOrder (catalog : List Produto) (store : Store) (req : CreateReq)
    (gw : GatewayResult) (now : Int) : CreateResult × Store :=
  if req.carrinho = [] then
    (.validationError "Carrinho inválido ou vazio.", store)
  else if req.nomeCliente = "" ∨ req.email = "" then
    (.validationError "Nome e email são obrigatórios.", store)
  else
    -- the rejection `isNaN(valorTotal) || valorTotal <= 0`, split by
    -- classification: NaN fails the first check, -Infinity the second;
    -- +Infinity passes both and proceeds
    match parseValorTotalJs req.total with
    | .nan => (.validationError "Valor total inválido.", store)
    | .negInf => (.validationError "Valor total inválido.", store)
    | .posInf =>
        (match gw with
         | .err msg => (.gatewayError msg, store)
         | .ok resp =>
             (.ok (mkCreateResp catalog req resp),
              putRecord store resp.id (mkOrderRecordInf catalog req resp now)))
    | .finite valorTotal =>
      if valorTotal ≤ 0 then
        (.validationError "Valor total inválido.", store)
      else
        match gw with
        | .err msg => (.gatewayError msg, store)
        | .ok resp =>
            (.ok (mkCreateResp catalog req resp),
             putRecord store resp.id (mkOrderRecord catalog req resp valorTotal now))

/-! ## Status poll (`GET /status-pagamento/:id`, lines 259-360) -/

/-- The gateway's successful answer to `paymentClient.get` (the fields the
handlers read). -/
structure GetResp where
  status : String
  status_detail : String
  transaction_amount : ℚ
deriving DecidableEq

/-- The standardized `responseData` JSON of the status poll (lines 329-341).
`total` is in centavos via `totalCentavos || total * 100 || 0`;
`createdAt` is always truthy so its `||` fallbacks never fire. -/
structure StatusResponse where
  status : String
  statusDetail : String
  paymentId : String
  products : List ProductEntry
  customerEmail : String
  total : JsNumber
  createdAt : Int
  updatedAt : Int
  hasLinks : Bool
  linksCount : ℕ
deriving DecidableEq

/-- Builds `responseData` from a record (`||` falls through on the falsy
numbers `0` and `NaN`). -/
def mkStatusResponse (id : String) (r : Registro) : StatusResponse :=
  { status := r.status
    statusDetail := r.statusDetail
    paymentId := if r.paymentId = "" then id else r.paymentId
    products := r.products
    customerEmail := if r.customerEmail = "" then "N/A" else r.customerEmail
    total := if jsTruthyNum r.totalCentavos then r.totalCentavos
             else if jsTruthyNum (jsMulPos r.total 100) then jsMulPos r.total 100
             else .finite 0
    createdAt := r.createdAt
    updatedAt := r.updatedAt.getD r.createdAt
    hasLinks := !r.links.isEmpty
    linksCount := r.links.length }

/-- The minimal record synthesized when the poll finds the id only at the
gateway (lines 276-288); `transaction_amount || 0` is the identity on `ℚ`. -/
def minimalRecord (id : String) (g : GetResp) (now : Int) : Registro :=
  { status := g.status
    statusDetail := g.status_detail
    links := []
    criadoEm := now
    paymentId := id
    customerEmail := "N/A"
    customerName := none
    total := .finite g.transaction_amount
    totalCentavos := .finite ((jsRound (g.transaction_amount * 100) : ℤ) : ℚ)
    products := []
    createdAt := now
    carrinhoOriginal := none
    externalReference := none
    qrData := none
    updatedAt := some now }

/-- Result of the status poll. -/
inductive PollResult where
  | notFound
  | ok (resp : StatusResponse)
deriving DecidableEq

/-- Full outcome of one poll: response, new store, and whether the gateway
was queried. -/
structure PollOutcome where
  result : PollResult
  store : Store
  gatewayCalled : Bool

/-- The `GET /status-pagamento/:id` handler.  `gw` is the answer the gateway
would give if queried; `gatewayCalled` records whether it actually was. -/
def getOrderStatus (store : Store) (id : String) (gw : Except String GetResp)
    (now : Int) : PollOutcome :=
  match store id with
  | none =>
    match gw with
    | .error _ => { result := .notFound, store := store, gatewayCalled := true }
    | .ok g =>
        let r := minimalRecord id g now
        { result := .ok (mkStatusResponse id r), store := putRecord store id r,
          gatewayCalled := true }
  | some r =>
    if r.status = "pending" ∨ r.status = "in_process" then
      match gw with
      | .ok g =>
          let r2 : Registro :=
            { r with status := g.status, statusDetail := g.status_detail,
                     updatedAt := some now }
          { result := .ok (mkStatusResponse id r2), store := putRecord store id r2,
            gatewayCalled := true }
      | .error _ =>
          { result := .ok (mkStatusResponse id r), store := store, gatewayCalled := true }
    else
      { result := .ok (mkStatusResponse id r), store := store, gatewayCalled := false }

/-! ## Download release (`GET /link-download/:id`, lines 363-435) -/

/-- Result of the download handler. -/
inductive DownloadResult where
  /-- 404: unknown locally and the gateway lookup failed. -/
  | gwNotFound
  /-- 403: unknown locally, gateway reports a non-approved status. -/
  | gwNotApproved (status : String)
  /-- 404: unknown locally, gateway reports approved but the system never
  processed the payment, so no links exist. -/
  | gwNotProcessed (status : String)
  /-- 403: known locally with a non-approved status. -/
  | notApproved (status detail : String)
  /-- 410: the 24-hour window has elapsed. -/
  | expired
  /-- 404: no download link on the record. -/
  | noLinks
  /-- 200: the links with denormalized order metadata. -/
  | ok (links : List String) (products : List ProductEntry)
       (customerName : Option String) (total : JsNumber)
deriving DecidableEq

/-- The `GET /link-download/:id` handler.  Never mutates the store. -/
def getDownloadLinks (store : Store) (id : String) (gw : Except String GetResp)
    (now : Int) : DownloadResult :=
  match store id with
  | none =>
    match gw with
    | .error _ => .gwNotFound
    | .ok g => if g.status ≠ "approved" then .gwNotApproved g.status else .gwNotProcessed g.status
  | some r =>
    if r.status ≠ "approved" then .notApproved r.status r.statusDetail
    else if now - r.criadoEm > tempoExpiracao then .expired
    else if r.links = [] then .noLinks
    else .ok r.links r.products r.customerName r.total

/-! ## Retry helper (`routes.ts`, lines 37-51) -/

/-- Outcome of `retryWithBackoff`: a success, a propagated operation error,
or the `Max retries exceeded` throw (reachable only when `maxRetries = 0`). -/
inductive RetryOutcome (ε α : Type) where
  | ok (a : α)
  | err (e : ε)
  | exhausted
deriving DecidableEq

/-- `Except.isOk` as a plain definition. -/
def exOk {ε α : Type} : Except ε α → Bool
  | .ok _ => true
  | .error _ => false

/-- The loop of `retryWithBackoff` from iteration `i` with `rem` iterations
left.  `op j` is the outcome of the `j`-th invocation (0-based).  Returns
the outcome, the number of invocations performed, and the list of waits
(`delay * (i + 1)` after a non-final failed iteration `i`). -/
def retryAux {ε α : Type} (op : ℕ → Except ε α) (delay : ℕ) :
    ℕ → ℕ → RetryOutcome ε α × ℕ × List ℕ
  | _, 0 => (.exhausted, 0, [])
  | i, rem + 1 =>
    match op i with
    | .ok a => (.ok a, 1, [])
    | .error e =>
      if rem = 0 then (.err e, 1, [])
      else
        let t := retryAux op delay (i + 1) rem
        (t.1, t.2.1 + 1, delay * (i + 1) :: t.2.2)

/-- `retryWithBackoff(fn, maxRetries, delay)` as a trace over the sequence of
attempt outcomes `op`. -/
def retryWithBackoff {ε α : Type} (op : ℕ → Except ε α) (maxRetries delay : ℕ) :
    RetryOutcome ε α × ℕ × List ℕ :=
  retryAux op delay 0 maxRetries

/-! ## Concrete sample data for witnesses -/

/-- The empty tracking store. -/
def emptyStore : Store := fun _ => none

/-- A representative stored record. -/
def sampleRegistro : Registro :=
  { status := "approved", statusDetail := "accredited", links := ["https://d/1"],
    criadoEm := 0, paymentId := "pay1", customerEmail := "a@b.com",
    customerName := some "Ana", total := 10, totalCentavos := 1000, products := [],
    createdAt := 0, carrinhoOriginal := none, externalReference := none,
    qrData := none, updatedAt := none }

/-- A one-record store holding `sampleRegistro` under `"pay1"`. -/
def oneStore : Store := fun k => if k = "pay1" then some sampleRegistro else none

/-- Store with a fresh record (age 99) and an old one (age 101) at `now = 1000`. -/
def twoAgeStore : Store := fun k =>
  if k = "fresh" then some { sampleRegistro with criadoEm := 901 }
  else if k = "old" then some { sampleRegistro with criadoEm := 899 }
  else none

/-- A valid creation request with a numeric total. -/
def sampleReq : CreateReq :=
  { carrinho := [CartItem.str "x"], nomeCliente := "Ana", email := "a@b.com",
    total := .num 10 }

/-- A gateway creation answer reporting `in_process`. -/
def inProcessResp : PaymentResp :=
  { id := "pay9", status := "in_process", status_detail := "d",
    qr_code_base64 := "b64", qr_code := "qr", ticket_url := "t" }

/-- A gateway creation answer reporting `pending`. -/
def pendingResp : PaymentResp :=
  { id := "pay7", status := "pending", status_detail := "pending_waiting_transfer",
    qr_code_base64 := "b64", qr_code := "qr", ticket_url := "t" }

/-- A creation request whose total is the string `"Infinity"`. -/
def infTotalReq : CreateReq :=
  { carrinho := [CartItem.str "x"], nomeCliente := "Ana", email := "a@b.com",
    total := .str "Infinity" }

/-- A catalog with one product, for the partial-resolution witness. -/
def sampleCatalog : List Produto :=
  [{ id := "g1", nome := "Curso", preco := 10, linkDownload := "https://dl/g1" }]

/-- A mixed cart: one resolvable id, one unresolvable id. -/
def mixedReq : CreateReq :=
  { carrinho := [CartItem.str "g1", CartItem.str "bad"], nomeCliente := "Ana",
    email := "a@b.com", total := .num 10 }

/-- An attempt sequence failing once and then succeeding. -/
def sampleOp : ℕ → Except String ℕ :=
  fun i => if i = 0 then .error "e0" else .ok i

/-- An attempt sequence that always fails. -/
def failOp : ℕ → Except String ℕ :=
  fun i => .error (toString i)

/-! ## Claims -/

/-- Unfolding: a successful attempt stops the loop at once. -/
theorem retryAux_ok {ε α : Type} (op : ℕ → Except ε α) (d i rem : ℕ) (a : α)
    (hop : op i = .ok a) : retryAux op d i (rem + 1) = (.ok a, 1, []) := by
  simp [retryAux, hop]

/-- Unfolding: a failure on the last allowed attempt is thrown as-is. -/
theorem retryAux_err_last {ε α : Type} (op : ℕ → Except ε α) (d i : ℕ) (e : ε)
    (hop : op i = .error e) : retryAux op d i 1 = (.err e, 1, []) := by
  simp [retryAux, hop]

/-- Unfolding: a failure on a non-final attempt waits `d * (i + 1)` and
continues. -/
theorem retryAux_err_step {ε α : Type} (op : ℕ → Except ε α) (d i rem : ℕ) (e : ε)
    (hop : op i = .error e) (hn : rem ≠ 0) :
    retryAux op d i (rem + 1) =
      ((retryAux op d (i + 1) rem).1, (retryAux op d (i + 1) rem).2.1 + 1,
       d * (i + 1) :: (retryAux op d (i + 1) rem).2.2) := by
  simp [retryAux, hop, hn]

/-- The loop performs at most as many invocations as it has iterations left. -/
theorem retryAux_calls_le {ε α : Type} (op : ℕ → Except ε α) (d : ℕ) :
    ∀ rem i, (retryAux op d i rem).2.1 ≤ rem := by
  intro rem
  induction rem with
  | zero => intro i; simp [retryAux]
  | succ n ih =>
    intro i
    cases hop : op i with
    | ok a => rw [retryAux_ok op d i n a hop]; simp
    | error e =>
      by_cases hn : n = 0
      · subst hn
        rw [retryAux_err_last op d i e hop]
      · rw [retryAux_err_step op d i n e hop hn]
        exact Nat.succ_le_succ (ih (i + 1))

/-- If the first `i0` attempts from `i` fail and attempt `i + i0` succeeds
within the remaining budget, the loop stops there with the successful value,
having waited `d * (i + 1 + j)` after each failed attempt `i + j`. -/
theorem retryAux_first_success {ε α : Type} (op : ℕ → Except ε α) (d : ℕ) :
    ∀ i0 rem i a, i0 < rem → (∀ j, j < i0 → exOk (op (i + j)) = false) →
      op (i + i0) = .ok a →
      retryAux op d i rem = (.ok a, i0 + 1, (List.range i0).map fun j => d * (i + 1 + j)) := by
  intro i0
  induction i0 with
  | zero =>
    intro rem i a hlt hf hok
    rw [Nat.add_zero] at hok
    cases rem with
    | zero => omega
    | succ n => simp [retryAux_ok op d i n a hok]
  | succ k ih =>
    intro rem i a hlt hf hok
    cases rem with
    | zero => omega
    | succ n =>
      have h0 : exOk (op i) = false := by
        have := hf 0 (by omega)
        rwa [Nat.add_zero] at this
      cases hop : op i with
      | ok b => rw [hop] at h0; simp [exOk] at h0
      | error e =>
        have hn : n ≠ 0 := by omega
        have hrec := ih n (i + 1) a (by omega)
          (fun j hj => by
            have := hf (j + 1) (by omega)
            rwa [show i + (j + 1) = i + 1 + j by omega] at this)
          (by rwa [show i + 1 + k = i + (k + 1) by omega])
        rw [retryAux_err_step op d i n e hop hn, hrec]
        simp only [Prod.mk.injEq, true_and]
        simp only [List.range_succ_eq_map, List.map_cons, List.map_map, Nat.add_zero]
        refine congrArg₂ _ rfl ?_
        refine List.map_congr_left fun j hj => ?_
        simp only [Function.comp_apply]
        exact congrArg (fun t => d * t) (by omega)

/-- If every attempt in the remaining budget fails, the loop performs all of
them, waits after each non-final one, and propagates the error of the last
attempt unchanged. -/
theorem retryAux_all_fail {ε α : Type} (op : ℕ → Except ε α) (d : ℕ) :
    ∀ rem i, 1 ≤ rem → (∀ j, j < rem → exOk (op (i + j)) = false) →
      ∃ e, op (i + (rem - 1)) = .error e ∧
        retryAux op d i rem =
          (.err e, rem, (List.range (rem - 1)).map fun j => d * (i + 1 + j)) := by
  intro rem
  induction rem with
  | zero => intro i h; omega
  | succ n ih =>
    intro i _ hf
    have h0 : exOk (op i) = false := by
      have := hf 0 (by omega)
      rwa [Nat.add_zero] at this
    cases hop : op i with
    | ok b => rw [hop] at h0; simp [exOk] at h0
    | error e =>
      cases n with
      | zero => exact ⟨e, by simpa using hop, by simp [retryAux_err_last op d i e hop]⟩
      | succ m =>
        obtain ⟨e2, he2, heq⟩ := ih (i + 1) (by omega)
          (fun j hj => by
            have := hf (j + 1) (by omega)
            rwa [show i + (j + 1) = i + 1 + j by omega] at this)
        refine ⟨e2, ?_, ?_⟩
        · rwa [show i + (m + 1 + 1 - 1) = i + 1 + (m + 1 - 1) by omega]
        · rw [retryAux_err_step op d i (m + 1) e hop (by omega), heq]
          simp only [Prod.mk.injEq, true_and]
          simp only [show m + 1 + 1 - 1 = (m + 1 - 1) + 1 by omega,
            List.range_succ_eq_map, List.map_cons, List.map_map, Nat.add_zero]
          refine congrArg₂ _ rfl ?_
          refine List.map_congr_left fun j hj => ?_
          simp only [Function.comp_apply]
          exact congrArg (fun t => d * t) (by omega)

/-- Bridging lemma: a total that parses to a finite value classifies as
that finite JS number. -/
theorem parseValorTotal_eq_some {t : TotalInput} {v : ℚ}
    (h : parseValorTotal t = some v) : parseValorTotalJs t = .finite v := by
  rcases h2 : parseValorTotalJs t with q | _ | _ | _ <;>
    simp [parseValorTotal, h2] at h
  rw [h]

/-- C5: the deferred webhook reconciliation `updateStatus` is a no-op on the
store when the payment id is absent, and when it is present it changes only
the status, status-detail and last-updated-at fields of that record, leaving
every other field and every other record unchanged. -/
theorem c5_updateStatus_frame (store : Store) (id : String) (s d : String) (t : Int) :
    (store id = none → updateStatus store id s d t = store) ∧
    ∀ r, store id = some r →
      updateStatus store id s d t id =
        some { r with status := s, statusDetail := d, updatedAt := some t } ∧
      ∀ k, k ≠ id → updateStatus store id s d t k = store k := by
  constructor
  · intro h
    simp [updateStatus, h]
  · intro r h
    constructor
    · simp [updateStatus, h, putRecord]
    · intro k hk
      simp [updateStatus, h, putRecord, hk]

/-- Witness for C5 at a concrete one-record store. -/
theorem c5_updateStatus_frame_witness :
    updateStatus oneStore "nope" "approved" "ok" 7 = oneStore ∧
    updateStatus oneStore "pay1" "rejected" "cc_rejected" 7 "pay1" =
      some { sampleRegistro with
              status := "rejected"
              statusDetail := "cc_rejected"
              updatedAt := some 7 } ∧
    updateStatus oneStore "pay1" "rejected" "cc_rejected" 7 "other" = oneStore "other" :=
  ⟨(c5_updateStatus_frame oneStore "nope" "approved" "ok" 7).1 (by decide),
   ((c5_updateStatus_frame oneStore "pay1" "rejected" "cc_rejected" 7).2
      sampleRegistro (by decide)).1,
   ((c5_updateStatus_frame oneStore "pay1" "rejected" "cc_rejected" 7).2
      sampleRegistro (by decide)).2 "other" (by decide)⟩

/-- C6: `sweepExpired maxAge` removes exactly the records whose age strictly
exceeds `maxAge`: strictly older records are deleted, records of age at most
`maxAge` are retained unchanged (and absent keys stay absent). -/
theorem c6_sweepExpired_exact (store : Store) (now maxAge : Int) (k : String) :
    (store k = none → sweepExpired now maxAge store k = none) ∧
    (∀ r, store k = some r → now - r.criadoEm > maxAge →
      sweepExpired now maxAge store k = none) ∧
    (∀ r, store k = some r → now - r.criadoEm ≤ maxAge →
      sweepExpired now maxAge store k = some r) := by
  refine ⟨fun h => by simp [sweepExpired, h], fun r h hage => ?_, fun r h hage => ?_⟩
  · simp [sweepExpired, h, hage]
  · simp [sweepExpired, h, not_lt.mpr hage]

/-- Witness for C6: of two records with ages `maxAge - 1` and `maxAge + 1`
(`maxAge = 100`, `now = 1000`), only the second is removed. -/
theorem c6_sweepExpired_exact_witness :
    sweepExpired 1000 100 twoAgeStore "old" = none ∧
    sweepExpired 1000 100 twoAgeStore "fresh" = some { sampleRegistro with criadoEm := 901 } :=
  ⟨(c6_sweepExpired_exact twoAgeStore 1000 100 "old").2.1
      { sampleRegistro with criadoEm := 899 } (by decide) (by decide),
   (c6_sweepExpired_exact twoAgeStore 1000 100 "fresh").2.2
      { sampleRegistro with criadoEm := 901 } (by decide) (by decide)⟩

/-- C10: an approved record older than the 1-hour sweep threshold but still
inside the 24-hour download window is deliverable before the sweep, deleted
by the sweep, and afterwards every download request takes the unknown-record
path, which can never return the stored links. -/
theorem c10_sweep_starves_downloads (store : Store) (id : String) (r : Registro)
    (now : Int) (h : store id = some r) (happ : r.status = "approved")
    (hlinks : r.links ≠ []) (hold : now - r.criadoEm > umaHora)
    (hwin : now - r.criadoEm ≤ tempoExpiracao) :
    (∀ gw, getDownloadLinks store id gw now = .ok r.links r.products r.customerName r.total) ∧
    sweepExpired now umaHora store id = none ∧
    ∀ gw now2 links products name total,
      getDownloadLinks (sweepExpired now umaHora store) id gw now2 ≠
        .ok links products name total := by
  have hswept : sweepExpired now umaHora store id = none := by
    simp [sweepExpired, h, hold]
  refine ⟨fun gw => ?_, hswept, fun gw now2 links products name total => ?_⟩
  · simp [getDownloadLinks, h, happ, not_lt.mpr hwin, hlinks]
  · cases gw with
    | error e => simp [getDownloadLinks, hswept]
    | ok g =>
        simp only [getDownloadLinks, hswept]
        split <;> simp

/-- Witness for C10 with an approved two-hour-old record. -/
theorem c10_sweep_starves_downloads_witness :
    getDownloadLinks oneStore "pay1" (.error "offline") 7200000 =
      .ok ["https://d/1"] [] (some "Ana") 10 ∧
    sweepExpired 7200000 umaHora oneStore "pay1" = none ∧
    getDownloadLinks (sweepExpired 7200000 umaHora oneStore) "pay1" (.error "offline") 7200000 ≠
      .ok ["https://d/1"] [] (some "Ana") 10 := by
  have h := c10_sweep_starves_downloads oneStore "pay1" sampleRegistro 7200000
    (by decide) (by decide) (by decide) (by decide) (by decide)
  exact ⟨h.1 (.error "offline"),
         h.2.1,
         h.2.2 (.error "offline") 7200000 ["https://d/1"] [] (some "Ana") 10⟩

/-- C2: when the gateway's create-payment call fails, `createOrder` surfaces
the gateway's diagnostic message as a gateway error and leaves the tracking
store unchanged. -/
theorem c2_gateway_failure_no_persist (catalog : List Produto) (store : Store)
    (req : CreateReq) (msg : String) (now : Int)
    (hcart : req.carrinho ≠ []) (hname : req.nomeCliente ≠ "") (hemail : req.email ≠ "")
    (v : ℚ) (hv : parseValorTotal req.total = some v) (hpos : 0 < v) :
    createOrder catalog store req (.err msg) now = (.gatewayError msg, store) := by
  have hjs := parseValorTotal_eq_some hv
  simp [createOrder, hcart, hname, hemail, hjs, not_le.mpr hpos]

/-- Witness for C2 on a concrete valid request. -/
theorem c2_gateway_failure_no_persist_witness :
    createOrder [] emptyStore sampleReq (.err "boom") 0 = (.gatewayError "boom", emptyStore) :=
  c2_gateway_failure_no_persist [] emptyStore sampleReq "boom" 0
    (by decide) (by decide) (by decide) 10 rfl (by norm_num)

/-- C1 (amended): for a valid submission whose gateway call succeeds,
`createOrder` stores under the gateway-assigned payment id the record built
by the handler; its status field equals the status reported by the gateway's
immediate response (in particular `"pending"` whenever the gateway reports
`"pending"`), and its total field is exactly the parsed submitted total,
never recomputed from the line items. -/
theorem c1_stores_gateway_status_and_exact_total (catalog : List Produto) (store : Store)
    (req : CreateReq) (resp : PaymentResp) (now : Int)
    (hcart : req.carrinho ≠ []) (hname : req.nomeCliente ≠ "") (hemail : req.email ≠ "")
    (v : ℚ) (hv : parseValorTotal req.total = some v) (hpos : 0 < v) :
    (createOrder catalog store req (.ok resp) now).2 resp.id =
      some (mkOrderRecord catalog req resp v now) ∧
    (mkOrderRecord catalog req resp v now).status = resp.status ∧
    (mkOrderRecord catalog req resp v now).total = v ∧
    (resp.status = "pending" → (mkOrderRecord catalog req resp v now).status = "pending") := by
  refine ⟨?_, rfl, rfl, fun h => h⟩
  have hjs := parseValorTotal_eq_some hv
  simp [createOrder, hcart, hname, hemail, hjs, not_le.mpr hpos, putRecord]

/-- Witness for the amended C1: the gateway reports `pending` and the stored
record is pending with the submitted total. -/
theorem c1_stores_gateway_status_and_exact_total_witness :
    (createOrder [] emptyStore sampleReq (.ok pendingResp) 0).2 "pay7" =
      some (mkOrderRecord [] sampleReq pendingResp 10 0) ∧
    (mkOrderRecord [] sampleReq pendingResp 10 0).status = "pending" ∧
    (mkOrderRecord [] sampleReq pendingResp 10 0).total = 10 := by
  have h := c1_stores_gateway_status_and_exact_total [] emptyStore sampleReq pendingResp 0
    (by decide) (by decide) (by decide) 10 rfl (by norm_num)
  exact ⟨h.1, h.2.2.2 rfl, h.2.2.1⟩

/-- C1 (counterexample to the claim as stated): when the gateway's immediate
response carries status `in_process`, the stored record's status is
`in_process`, not `pending` — the handler copies `pagamento.status` instead
of always writing `"pending"`. -/
theorem c1_counterexample :
    ((createOrder [] emptyStore sampleReq (.ok inProcessResp) 0).2 "pay9").map Registro.status =
      some "in_process" ∧ ("in_process" : String) ≠ "pending" :=
  ⟨rfl, by decide⟩

/-- C3: for a stored payment id, the download handler rejects with the
not-approved error (carrying the record's status and detail) exactly when the
status is not `approved`; otherwise it expires exactly when the age exceeds
the 24-hour window; otherwise it reports no-links exactly when the record has
no download references; otherwise it returns the links together with the
customer name, total and products. -/
theorem c3_download_gating (store : Store) (id : String) (gw : Except String GetResp)
    (now : Int) (r : Registro) (h : store id = some r) :
    (getDownloadLinks store id gw now = .notApproved r.status r.statusDetail ↔
      r.status ≠ "approved") ∧
    (getDownloadLinks store id gw now = .expired ↔
      r.status = "approved" ∧ now - r.criadoEm > tempoExpiracao) ∧
    (getDownloadLinks store id gw now = .noLinks ↔
      r.status = "approved" ∧ now - r.criadoEm ≤ tempoExpiracao ∧ r.links = []) ∧
    (getDownloadLinks store id gw now = .ok r.links r.products r.customerName r.total ↔
      r.status = "approved" ∧ now - r.criadoEm ≤ tempoExpiracao ∧ r.links ≠ []) := by
  by_cases hst : r.status = "approved"
  · by_cases ht : now - r.criadoEm > tempoExpiracao
    · have hle : ¬(now - r.criadoEm ≤ tempoExpiracao) := not_le.mpr ht
      simp [getDownloadLinks, h, hst, ht, hle]
    · by_cases hl : r.links = []
      · simp [getDownloadLinks, h, hst, ht, hl, not_lt.mp ht]
      · simp [getDownloadLinks, h, hst, ht, hl, not_lt.mp ht]
  · simp [getDownloadLinks, h, hst]

/-- Witness for C3: a fresh approved record with one link is delivered. -/
theorem c3_download_gating_witness :
    getDownloadLinks oneStore "pay1" (.error "offline") 1000 =
      .ok ["https://d/1"] [] (some "Ana") 10 :=
  ((c3_download_gating oneStore "pay1" (.error "offline") 1000 sampleRegistro
      (by decide)).2.2.2).mpr (by refine ⟨rfl, by decide, by decide⟩)

/-- C4: a poll on a stored record with a terminal status returns the cached
record without querying the gateway and without touching the store; on a
`pending`/`in_process` record it queries the gateway and, on a successful
answer, overwrites status and detail, refreshes `updatedAt`, persists the
updated record and returns it. -/
theorem c4_poll_terminal_cached_pending_refreshed (store : Store) (id : String)
    (gw : Except String GetResp) (now : Int) (r : Registro) (h : store id = some r) :
    ((r.status = "approved" ∨ r.status = "rejected" ∨ r.status = "cancelled") →
      getOrderStatus store id gw now =
        { result := .ok (mkStatusResponse id r), store := store, gatewayCalled := false }) ∧
    (∀ g, gw = .ok g → (r.status = "pending" ∨ r.status = "in_process") →
      getOrderStatus store id gw now =
        { result := .ok (mkStatusResponse id
            { r with status := g.status, statusDetail := g.status_detail,
                     updatedAt := some now })
          store := putRecord store id
            { r with status := g.status, statusDetail := g.status_detail,
                     updatedAt := some now }
          gatewayCalled := true }) := by
  constructor
  · intro hterm
    have hnp : ¬(r.status = "pending" ∨ r.status = "in_process") := by
      rcases hterm with h1 | h1 | h1 <;> rw [h1] <;> decide
    simp [getOrderStatus, h, hnp]
  · intro g hg hpend
    subst hg
    simp [getOrderStatus, h, hpend]

/-- Witness for C4: the approved record is served from cache; a pending
record is refreshed from the gateway's answer. -/
theorem c4_poll_terminal_cached_pending_refreshed_witness :
    getOrderStatus oneStore "pay1" (.error "offline") 1000 =
      { result := .ok (mkStatusResponse "pay1" sampleRegistro), store := oneStore,
        gatewayCalled := false } ∧
    getOrderStatus (putRecord emptyStore "pay1" { sampleRegistro with status := "pending" })
        "pay1" (.ok { status := "approved", status_detail := "accredited",
                      transaction_amount := 10 }) 1000 =
      { result := .ok (mkStatusResponse "pay1"
          { sampleRegistro with status := "approved", statusDetail := "accredited",
                                updatedAt := some 1000 })
        store := putRecord (putRecord emptyStore "pay1"
            { sampleRegistro with status := "pending" }) "pay1"
          { sampleRegistro with status := "approved", statusDetail := "accredited",
                                updatedAt := some 1000 }
        gatewayCalled := true } := by
  constructor
  · exact (c4_poll_terminal_cached_pending_refreshed oneStore "pay1" (.error "offline")
      1000 sampleRegistro (by decide)).1 (Or.inl rfl)
  · exact (c4_poll_terminal_cached_pending_refreshed
      (putRecord emptyStore "pay1" { sampleRegistro with status := "pending" }) "pay1"
      (.ok { status := "approved", status_detail := "accredited", transaction_amount := 10 })
      1000 { sampleRegistro with status := "pending" } (by decide)).2
      { status := "approved", status_detail := "accredited", transaction_amount := 10 }
      rfl (Or.inl rfl)

/-- C7 (counterexample to the claim as stated): the claim's universal
"every createOrder request" also covers the cart-payment handler of
`routes.ts`, whose schema float-parses the raw string with no
`R$`-stripping: the localized total `"R$10,00"` is rejected there
(`parseFloat` gives `NaN`), although the stripping pipeline the claim
describes parses it to the positive amount `10`. -/
theorem c7_counterexample :
    zodTotalTransform (.str "R$10,00") = none ∧
    parseValorTotalJs (.str "R$10,00") = JsNumber.finite 10 := by
  constructor
  · decide
  · show jsParseFloatJs (jsReplaceFirst (jsRemoveDots (jsReplaceFirst "R$10,00".data
        ['R', '$'] [])) [','] ['.']) = JsNumber.finite 10
    have hpipe : jsReplaceFirst (jsRemoveDots (jsReplaceFirst "R$10,00".data ['R', '$'] []))
        [','] ['.'] = "10.00".data := by decide
    have hsci : jsParseFloatSci "10.00".data = some (1000, -2) := by decide
    rw [hpipe]
    simp only [jsParseFloatJs, hsci]
    rw [if_neg (by decide)]
    show doubleOfSci 1000 (-2) = JsNumber.finite 10
    have hx : ((1000 : ℤ) : ℚ) * (10 : ℚ) ^ (-2 : ℤ) = 10 := by norm_num
    simp only [doubleOfSci, hx]
    rw [if_neg, if_neg]
    · rw [abs_of_pos (by norm_num : (0 : ℚ) < 10), overflowBound]
      norm_num
    · rw [abs_of_pos (by norm_num : (0 : ℚ) < 10), underflowBound]
      norm_num

/-- C7 (amended): in the `server.js` cart-payment handler, a string total is
parsed by stripping the first `R$`, removing every dot, then replacing the
first comma with a dot before `parseFloat`; a numeric total is used as-is
and any other value acts through its numeric coercion; and, for an
otherwise valid request, the handler fails with the total-validation error
exactly when the resulting JS number is `NaN`, `-Infinity`, or a
non-positive finite value — in particular `+Infinity` passes validation. -/
theorem c7_total_parsing_and_validation (catalog : List Produto) (store : Store)
    (req : CreateReq) (gw : GatewayResult) (now : Int)
    (hcart : req.carrinho ≠ []) (hname : req.nomeCliente ≠ "") (hemail : req.email ≠ "") :
    (∀ s, parseValorTotalJs (.str s) =
      jsParseFloatJs (jsReplaceFirst (jsRemoveDots (jsReplaceFirst s.data ['R', '$'] []))
        [','] ['.'])) ∧
    (∀ q, parseValorTotalJs (.num q) = .finite q) ∧
    (∀ c, parseValorTotalJs (.nonString c) = c) ∧
    (createOrder catalog store req gw now = (.validationError "Valor total inválido.", store) ↔
      parseValorTotalJs req.total = .nan ∨ parseValorTotalJs req.total = .negInf ∨
      ∃ q, parseValorTotalJs req.total = .finite q ∧ q ≤ 0) := by
  refine ⟨fun s => rfl, fun q => rfl, fun c => rfl, ?_⟩
  rcases hpv : parseValorTotalJs req.total with q | _ | _ | _
  · by_cases hle : q ≤ 0
    · simp [createOrder, hcart, hname, hemail, hpv, hle]
    · cases gw with
      | err msg => simp [createOrder, hcart, hname, hemail, hpv, hle]
      | ok resp => simp [createOrder, hcart, hname, hemail, hpv, hle]
  · simp [createOrder, hcart, hname, hemail, hpv]
  · cases gw with
    | err msg => simp [createOrder, hcart, hname, hemail, hpv]
    | ok resp => simp [createOrder, hcart, hname, hemail, hpv]
  · simp [createOrder, hcart, hname, hemail, hpv]

/-- Witness for the amended C7: the localized string is piped through the
three replacements, the validation equivalence holds for a request whose
total is the string `"Infinity"`, and that request indeed passes validation
and reaches the gateway. -/
theorem c7_total_parsing_and_validation_witness :
    parseValorTotalJs (.str "R$1.234,56") =
      jsParseFloatJs (jsReplaceFirst (jsRemoveDots (jsReplaceFirst "R$1.234,56".data
        ['R', '$'] [])) [','] ['.']) ∧
    (createOrder [] emptyStore infTotalReq (.err "down") 0 =
        (.validationError "Valor total inválido.", emptyStore) ↔
      parseValorTotalJs infTotalReq.total = .nan ∨
      parseValorTotalJs infTotalReq.total = .negInf ∨
      ∃ q, parseValorTotalJs infTotalReq.total = .finite q ∧ q ≤ 0) ∧
    createOrder [] emptyStore infTotalReq (.err "down") 0 = (.gatewayError "down", emptyStore) := by
  have h := c7_total_parsing_and_validation [] emptyStore infTotalReq (.err "down") 0
    (by decide) (by decide) (by decide)
  exact ⟨h.1 "R$1.234,56", h.2.2.2, rfl⟩

/-- C8: in a cart mixing a resolvable and an unresolvable product id, the
unresolvable item yields a placeholder line item (price 0, no download
reference), the resolvable item is resolved from the catalog, and the order
still goes through: payment succeeds and the record is stored. -/
theorem c8_partial_resolution (catalog : List Produto) (store : Store) (req : CreateReq)
    (resp : PaymentResp) (now : Int) (itemG itemB : CartItem)
    (idG idB : String) (nG nB : Option String) (qG qB : ℕ) (p : Produto)
    (hG : itemG ∈ req.carrinho) (heG : extractItem itemG = some (idG, nG, qG))
    (hfG : findProduto catalog idG = some p)
    (hB : itemB ∈ req.carrinho) (heB : extractItem itemB = some (idB, nB, qB))
    (hfB : findProduto catalog idB = none)
    (hname : req.nomeCliente ≠ "") (hemail : req.email ≠ "")
    (v : ℚ) (hv : parseValorTotal req.total = some v) (hpos : 0 < v) :
    ({ id := p.id, name := p.nome, downloadUrl := some p.linkDownload, format := "Digital",
       fileSize := "N/A", quantity := qG, price := p.preco } : ProductEntry) ∈
      (processCart catalog req.carrinho).2 ∧
    ({ id := idB, name := jsOrStr nB ("Produto ID: " ++ idB), downloadUrl := none,
       format := "Digital", fileSize := "N/A", quantity := qB, price := 0 } : ProductEntry) ∈
      (processCart catalog req.carrinho).2 ∧
    (createOrder catalog store req (.ok resp) now).1 = .ok (mkCreateResp catalog req resp) ∧
    (createOrder catalog store req (.ok resp) now).2 resp.id =
      some (mkOrderRecord catalog req resp v now) := by
  have hcart : req.carrinho ≠ [] := List.ne_nil_of_mem hG
  refine ⟨?_, ?_, ?_, ?_⟩
  · exact List.mem_filterMap.mpr ⟨itemG, hG, by simp [entryOfItem, heG, hfG]⟩
  · exact List.mem_filterMap.mpr ⟨itemB, hB, by simp [entryOfItem, heB, hfB]⟩
  · have hjs := parseValorTotal_eq_some hv
    simp [createOrder, hcart, hname, hemail, hjs, not_le.mpr hpos]
  · have hjs := parseValorTotal_eq_some hv
    simp [createOrder, hcart, hname, hemail, hjs, not_le.mpr hpos, putRecord]

/-- Witness for C8 with the catalog resolving `g1` but not `bad`. -/
theorem c8_partial_resolution_witness :
    ({ id := "g1", name := "Curso", downloadUrl := some "https://dl/g1", format := "Digital",
       fileSize := "N/A", quantity := 1, price := 10 } : ProductEntry) ∈
      (processCart sampleCatalog mixedReq.carrinho).2 ∧
    ({ id := "bad", name := "Produto ID: bad", downloadUrl := none, format := "Digital",
       fileSize := "N/A", quantity := 1, price := 0 } : ProductEntry) ∈
      (processCart sampleCatalog mixedReq.carrinho).2 ∧
    (createOrder sampleCatalog emptyStore mixedReq (.ok pendingResp) 0).1 =
      .ok (mkCreateResp sampleCatalog mixedReq pendingResp) := by
  have h := c8_partial_resolution sampleCatalog emptyStore mixedReq pendingResp 0
    (CartItem.str "g1") (CartItem.str "bad") "g1" "bad" none none 1 1
    { id := "g1", nome := "Curso", preco := 10, linkDownload := "https://dl/g1" }
    (by decide) (by decide) (by decide) (by decide) (by decide) (by decide)
    (by decide) (by decide) 10 rfl (by norm_num)
  exact ⟨h.1, h.2.1, h.2.2.1⟩

/-- C9: with `maxRetries ≥ 1`, `retryWithBackoff` invokes the operation at
most `maxRetries` times; the first successful attempt ends the loop with its
result and no further attempts; the wait after the `i`-th failed attempt
(1-based) is `delay * i`, linearly; and when every attempt fails, the error
of the last attempt is propagated unchanged. -/
theorem c9_retry_linear_backoff {ε α : Type} (op : ℕ → Except ε α) (m d : ℕ)
    (hm : 1 ≤ m) :
    (retryWithBackoff op m d).2.1 ≤ m ∧
    (∀ i0 a, i0 < m → (∀ j, j < i0 → exOk (op j) = false) → op i0 = .ok a →
      retryWithBackoff op m d = (.ok a, i0 + 1, (List.range i0).map fun j => d * (j + 1))) ∧
    ((∀ j, j < m → exOk (op j) = false) →
      ∃ e, op (m - 1) = .error e ∧
        retryWithBackoff op m d = (.err e, m, (List.range (m - 1)).map fun j => d * (j + 1))) := by
  refine ⟨retryAux_calls_le op d m 0, ?_, ?_⟩
  · intro i0 a hlt hf hok
    have h := retryAux_first_success op d i0 m 0 a hlt
      (fun j hj => by simpa using hf j hj) (by simpa using hok)
    rw [retryWithBackoff, h]
    refine congrArg _ (congrArg _ (List.map_congr_left fun j hj => ?_))
    exact congrArg (fun t => d * t) (by omega)
  · intro hf
    obtain ⟨e, he, heq⟩ := retryAux_all_fail op d m 0 hm
      (fun j hj => by simpa using hf j hj)
    refine ⟨e, by simpa using he, ?_⟩
    rw [retryWithBackoff, heq]
    refine congrArg _ (congrArg _ (List.map_congr_left fun j hj => ?_))
    exact congrArg (fun t => d * t) (by omega)

/-- Witness for C9: an operation failing once then succeeding stops after
the second attempt with one wait of `delay * 1`; an always-failing operation
is tried `maxRetries` times and the last error is propagated. -/
theorem c9_retry_linear_backoff_witness :
    retryWithBackoff sampleOp 3 100 = (.ok 1, 2, [100]) ∧
    retryWithBackoff failOp 3 100 = (.err "2", 3, [100, 200]) := by
  constructor
  · have h := (c9_retry_linear_backoff sampleOp 3 100 (by decide)).2.1 1 1
      (by decide) (by decide) rfl
    simpa using h
  · obtain ⟨e, he, heq⟩ := (c9_retry_linear_backoff failOp 3 100 (by decide)).2.2
      (by decide)
    have he2 : e = "2" := by
      have : Except.error (ε := String) (α := ℕ) e = .error "2" := he.symm.trans rfl
      simpa using this
    subst he2
    simpa using heq

end Loja
